import Mathlib

/-!
Shallow embedding of the aggregation / filtering core of `src/map.js`
(bikewatching): the traffic aggregator `computeStationTraffic`, the
time-window filter `filterTripsByTime`, the flow-ratio quantize scale
`stationFlow`, and the radius-scale update performed by
`updateScatterPlot`.  Timestamps are modelled by their hour/minute
components (the only components the code reads via `getHours` /
`getMinutes`); counts are natural numbers; the flow ratio is modelled
over `ℚ` (the JS doubles involved are exact for the small count
ratios and the thresholds 1/3, 2/3 produced by d3.scaleQuantize).
-/

namespace Bikewatching

/-- The time-of-day part of a JS `Date`: the code only ever reads
`getHours()` and `getMinutes()` (src/map.js lines 70-72). -/
structure DateTime where
  hours : Nat
  minutes : Nat
  deriving DecidableEq, Repr

/-- A trip record from the traffic CSV, restricted to the fields the
core reads: `start_station_id`, `end_station_id`, `started_at`,
`ended_at` (src/map.js lines 50, 56, 79-80, 147-150). -/
structure Trip where
  start_station_id : String
  end_station_id : String
  started_at : DateTime
  ended_at : DateTime
  deriving DecidableEq, Repr

/-- A station record: the identifying/base fields (`short_name`,
`lat`, `lon`) plus the three derived fields the aggregator assigns
(`arrivals`, `departures`, `totalTraffic`).  In JS the derived fields
are absent before the first aggregation; here they are plain `Nat`
fields, and the aggregator overwrites all three unconditionally, just
as the source does (src/map.js lines 62-64). -/
structure Station where
  short_name : String
  lat : Int
  lon : Int
  arrivals : Nat
  departures : Nat
  totalTraffic : Nat
  deriving DecidableEq, Repr

def dfltStation : Station :=
  { short_name := "", lat := 0, lon := 0,
    arrivals := 0, departures := 0, totalTraffic := 0 }

instance : Inhabited Station := ⟨dfltStation⟩

/-- `minutesSinceMidnight` (src/map.js lines 70-72):
`date.getHours() * 60 + date.getMinutes()`. -/
def minutesSinceMidnight (date : DateTime) : Nat :=
  date.hours * 60 + date.minutes

/-- The predicate of the `trips.filter` callback in `filterTripsByTime`
(src/map.js lines 78-86): keep a trip when the start or the end
time-of-day is within 60 minutes of the filter value, plain absolute
difference, no wraparound. -/
def tripKeep (timeFilter : Int) (trip : Trip) : Bool :=
  decide (((minutesSinceMidnight trip.started_at : Int) - timeFilter).natAbs ≤ 60) ||
  decide (((minutesSinceMidnight trip.ended_at : Int) - timeFilter).natAbs ≤ 60)

/-- `filterTripsByTime` (src/map.js lines 75-87): the sentinel `-1`
returns the input list itself; otherwise filter by `tripKeep`. -/
def filterTripsByTime (trips : List Trip) (timeFilter : Int) : List Trip :=
  if timeFilter = -1 then trips
  else trips.filter (tripKeep timeFilter)

/-- `d3.rollup(trips, v => v.length, key).get(id) ?? 0`
(src/map.js lines 47-57, 62-63): the number of trips whose key equals
`id`; a key absent from the rollup map yields 0, which coincides with
an empty filter. -/
def rollupCount (trips : List Trip) (key : Trip → String) (id : String) : Nat :=
  (trips.filter (fun t => key t == id)).length

/-- The body of the `stations.map` callback in `computeStationTraffic`
(src/map.js lines 59-67): assign `arrivals`, `departures` and
`totalTraffic = arrivals + departures` on the station record, looking
both counts up by `station.short_name`. -/
def setTraffic (trips : List Trip) (station : Station) : Station :=
  let id := station.short_name
  let arr := rollupCount trips (fun d => d.end_station_id) id
  let dep := rollupCount trips (fun d => d.start_station_id) id
  { station with arrivals := arr, departures := dep, totalTraffic := arr + dep }

/-- `computeStationTraffic` (src/map.js lines 46-68), value view: the
returned list, element by element. -/
def computeStationTraffic (stations : List Station) (trips : List Trip) : List Station :=
  stations.map (setTraffic trips)

/-- Object-identity model of a call `computeStationTraffic(stations, trips)`:
`store` holds the JS station objects (one slot per object) and `refs`
is the array of references passed in.  The source's `stations.map`
callback assigns the three derived fields on each referenced object in
place and returns the same reference (src/map.js lines 59-67), so the
call produces an updated store together with the same reference list. -/
def computeStationTrafficJS (trips : List Trip) :
    List Station → List Nat → List Station × List Nat
  | store, [] => (store, [])
  | store, r :: rs =>
      let store1 := store.set r (setTraffic trips (store.getD r dfltStation))
      let rest := computeStationTrafficJS trips store1 rs
      (rest.1, r :: rest.2)

/-- `stationFlow` (src/map.js lines 91-94):
`d3.scaleQuantize().domain([0, 1]).range([0, 0.5, 1])`.  d3 places the
two inner thresholds at 1/3 and 2/3 and resolves a value equal to a
threshold upward (bisectRight), so: below 1/3 ↦ 0, in [1/3, 2/3) ↦ 0.5,
at or above 2/3 ↦ 1. -/
def stationFlow (r : ℚ) : ℚ :=
  if r < 1/3 then 0 else if r < 2/3 then 1/2 else 1

/-- The ratio fed to `stationFlow` (src/map.js lines 181, 244):
`d.totalTraffic === 0 ? 0 : d.departures / d.totalTraffic`. -/
def departureRatio (s : Station) : ℚ :=
  if s.totalTraffic = 0 then 0 else (s.departures : ℚ) / (s.totalTraffic : ℚ)

/-- `d3.max(filteredStations, d => d.totalTraffic) || 0`
(src/map.js line 226): `d3.max` of an empty list is `undefined`, which
`|| 0` turns into `0`; on a non-empty list it is the maximum of the
(nonnegative) totals. -/
def maxTotalTraffic (stations : List Station) : Nat :=
  (stations.map (fun d => d.totalTraffic)).foldr max 0

/-- The configuration of the square-root radius scale after the update
in `updateScatterPlot` (src/map.js lines 163-166, 226-233): domain
`[0, domainMax]`, pixel range `[rangeLo, rangeHi]`. -/
structure ScaleConfig where
  domainMax : Nat
  rangeLo : Nat
  rangeHi : Nat
  deriving DecidableEq, Repr

/-- Steps 3 of `updateScatterPlot` (src/map.js lines 226-233): recompute
the domain maximum from the filtered station set, and pick the pixel
range from the filter state (`[0, 25]` inactive, `[3, 50]` active). -/
def updateRadiusScale (filteredStations : List Station) (currentFilter : Int) : ScaleConfig :=
  let maxTraffic := maxTotalTraffic filteredStations
  if currentFilter = -1 then
    { domainMax := maxTraffic, rangeLo := 0, rangeHi := 25 }
  else
    { domainMax := maxTraffic, rangeLo := 3, rangeHi := 50 }

/-! Concrete sample records, used by witnesses and counterexamples. -/

def tripMidnight : Trip :=
  { start_station_id := "A", end_station_id := "B",
    started_at := { hours := 0, minutes := 0 },
    ended_at := { hours := 0, minutes := 0 } }

def tripMorning : Trip :=
  { start_station_id := "A", end_station_id := "B",
    started_at := { hours := 8, minutes := 0 },
    ended_at := { hours := 8, minutes := 10 } }

def tripArrivesA : Trip :=
  { start_station_id := "B", end_station_id := "A",
    started_at := { hours := 12, minutes := 0 },
    ended_at := { hours := 12, minutes := 30 } }

def stationA : Station :=
  { short_name := "A", lat := 42, lon := -71,
    arrivals := 0, departures := 0, totalTraffic := 0 }

def stationB : Station :=
  { short_name := "B", lat := 42, lon := -70,
    arrivals := 0, departures := 0, totalTraffic := 0 }

/-! ## Theorems -/

/-- Claim C1: for an active center `c ∈ [0, 1439]`, `filterTripsByTime`
keeps exactly those trips of the input whose start or end time-of-day
(hours*60 + minutes) is within 60 minutes of `c`, by plain absolute
difference with no midnight wraparound. -/
theorem filter_membership_characterization (T : List Trip) (c : Int)
    (hc0 : 0 ≤ c) (hc1 : c ≤ 1439) (t : Trip) :
    t ∈ filterTripsByTime T c ↔
      t ∈ T ∧ (((minutesSinceMidnight t.started_at : Int) - c).natAbs ≤ 60 ∨
               ((minutesSinceMidnight t.ended_at : Int) - c).natAbs ≤ 60) := by
  have hc : c ≠ -1 := by omega
  simp [filterTripsByTime, hc, List.mem_filter, tripKeep]

/-- Witness for C1 at the concrete center 1439: a trip that starts and
ends at minute 0 is 1439 minutes away, hence excluded (no wraparound). -/
theorem filter_membership_characterization_witness :
    tripMidnight ∉ filterTripsByTime [tripMidnight] 1439 := by
  intro hmem
  have h := (filter_membership_characterization [tripMidnight] 1439
    (by decide) (by decide) tripMidnight).mp hmem
  rcases h with ⟨-, h | h⟩ <;> exact absurd h (by decide)

/-- Claim C2: every record produced by `computeStationTraffic`
satisfies `totalTraffic = arrivals + departures`. -/
theorem totalTraffic_eq_arrivals_add_departures (S : List Station) (T : List Trip)
    (s : Station) (hs : s ∈ computeStationTraffic S T) :
    s.totalTraffic = s.arrivals + s.departures := by
  rcases List.mem_map.mp hs with ⟨s0, -, rfl⟩
  rfl

/-- Witness for C2 on a one-station, one-trip input. -/
theorem totalTraffic_eq_arrivals_add_departures_witness :
    (setTraffic [tripMorning] stationA).totalTraffic =
      (setTraffic [tripMorning] stationA).arrivals +
        (setTraffic [tripMorning] stationA).departures :=
  totalTraffic_eq_arrivals_add_departures [stationA] [tripMorning]
    (setTraffic [tripMorning] stationA) (by decide)

/-- Claim C3 is false as stated: `computeStationTraffic` does not
return independent copies — it assigns the three derived fields through
the input references (src/map.js lines 62-64) and returns the same
objects, so the store of input objects is mutated by the call.  Here a
one-station store with a trip arriving at that station is changed. -/
theorem computeStationTraffic_mutates_input :
    ¬ ∀ (store : List Station) (refs : List Nat) (trips : List Trip),
        (computeStationTrafficJS trips store refs).1 = store := by
  intro h
  exact absurd (h [stationA] [0] [tripArrivesA]) (by decide)

/-- Claim C3 amended: the aggregator enriches the very records it is
given (no copying inside it; `updateScatterPlot` passes a fresh shallow
copy, src/map.js line 221), but it overwrites all three derived fields
unconditionally and preserves the base fields, so the derived fields
are a pure function of the current trip subset and never accumulate
across aggregator calls. -/
theorem computeStationTraffic_overwrites (S : List Station) (T1 T2 : List Trip) :
    computeStationTraffic (computeStationTraffic S T1) T2 = computeStationTraffic S T2 ∧
    ∀ s : Station, (setTraffic T1 s).short_name = s.short_name ∧
      (setTraffic T1 s).lat = s.lat ∧ (setTraffic T1 s).lon = s.lon := by
  refine ⟨?_, fun s => ⟨rfl, rfl, rfl⟩⟩
  induction S with
  | nil => rfl
  | cons a S ih =>
      show setTraffic T2 (setTraffic T1 a) ::
            computeStationTraffic (computeStationTraffic S T1) T2
          = setTraffic T2 a :: computeStationTraffic S T2
      rw [ih]
      rfl

/-- Claim C4: with the inactive sentinel `-1`, `filterTripsByTime`
returns the input list itself (even stronger than set-equality). -/
theorem filter_inactive_identity (T : List Trip) :
    filterTripsByTime T (-1) = T := by
  simp [filterTripsByTime]

/-- Re-filtering with the same predicate is idempotent: the second
pass filters a list all of whose elements already pass. -/
theorem filterTripsByTime_idem (T : List Trip) (c : Int) :
    filterTripsByTime (filterTripsByTime T c) c = filterTripsByTime T c := by
  unfold filterTripsByTime
  split
  · rfl
  · simp [List.filter_filter]

/-- Claim C5 is false as stated: there is no trip list and active
center on which re-filtering differs — `filterTripsByTime` re-applied
with the same center is always idempotent. -/
theorem refilter_not_idempotent_refuted :
    ¬ ∃ (T : List Trip) (c : Int), 0 ≤ c ∧ c ≤ 1439 ∧
        filterTripsByTime (filterTripsByTime T c) c ≠ filterTripsByTime T c := by
  rintro ⟨T, c, -, -, hne⟩
  exact hne (filterTripsByTime_idem T c)

/-- Claim C5 amended: re-filtering with the same active center is
idempotent, and the subset and completeness properties hold. -/
theorem refilter_idempotent_subset_complete (T : List Trip) (c : Int)
    (hc0 : 0 ≤ c) (hc1 : c ≤ 1439) :
    filterTripsByTime (filterTripsByTime T c) c = filterTripsByTime T c ∧
    (∀ t ∈ filterTripsByTime T c, t ∈ T) ∧
    (∀ t ∈ T,
      (((minutesSinceMidnight t.started_at : Int) - c).natAbs ≤ 60 ∨
       ((minutesSinceMidnight t.ended_at : Int) - c).natAbs ≤ 60) →
      t ∈ filterTripsByTime T c) := by
  have hc : c ≠ -1 := by omega
  refine ⟨filterTripsByTime_idem T c, ?_, ?_⟩
  · intro t ht
    simp only [filterTripsByTime, if_neg hc, List.mem_filter] at ht
    exact ht.1
  · intro t ht hkeep
    simp only [filterTripsByTime, if_neg hc, List.mem_filter]
    exact ⟨ht, by simpa [tripKeep] using hkeep⟩

/-- Witness for C5 at a concrete input. -/
theorem refilter_idempotent_subset_complete_witness :
    filterTripsByTime (filterTripsByTime [tripMorning] 480) 480 =
      filterTripsByTime [tripMorning] 480 :=
  (refilter_idempotent_subset_complete [tripMorning] 480 (by decide) (by decide)).1

def tripUnknown : Trip :=
  { start_station_id := "Z", end_station_id := "Z",
    started_at := { hours := 9, minutes := 0 },
    ended_at := { hours := 9, minutes := 15 } }

def stationThird : Station :=
  { short_name := "C", lat := 0, lon := 0,
    arrivals := 2, departures := 1, totalTraffic := 3 }

/-- Counting a key over `t :: T` adds one exactly when `t` has the key. -/
theorem rollupCount_cons (t : Trip) (T : List Trip) (key : Trip → String) (id : String) :
    rollupCount (t :: T) key id =
      (if key t = id then 1 else 0) + rollupCount T key id := by
  by_cases h : key t = id <;>
    simp [rollupCount, List.filter_cons, h, Nat.add_comm]

/-- Claim C6: a trip whose start (resp. end) station id matches no
station contributes zero to every departures (resp. arrivals) count;
an empty trip list yields all-zero counts; an empty station list
yields an empty output.  None of these is an error. -/
theorem unmatched_and_empty_inputs (S : List Station) (T : List Trip) (t : Trip) :
    (t.start_station_id ∉ S.map (fun s => s.short_name) →
      (computeStationTraffic S (t :: T)).map (fun s => s.departures) =
        (computeStationTraffic S T).map (fun s => s.departures)) ∧
    (t.end_station_id ∉ S.map (fun s => s.short_name) →
      (computeStationTraffic S (t :: T)).map (fun s => s.arrivals) =
        (computeStationTraffic S T).map (fun s => s.arrivals)) ∧
    (∀ s ∈ computeStationTraffic S [],
      s.arrivals = 0 ∧ s.departures = 0 ∧ s.totalTraffic = 0) ∧
    computeStationTraffic ([] : List Station) T = [] := by
  refine ⟨?_, ?_, ?_, rfl⟩
  · intro hnot
    simp only [computeStationTraffic, List.map_map]
    apply List.map_congr_left
    intro s hs
    have hne : t.start_station_id ≠ s.short_name := by
      intro he
      exact hnot (he ▸ List.mem_map_of_mem (fun s => s.short_name) hs)
    show rollupCount (t :: T) (fun d => d.start_station_id) s.short_name =
      rollupCount T (fun d => d.start_station_id) s.short_name
    simp [rollupCount_cons, hne]
  · intro hnot
    simp only [computeStationTraffic, List.map_map]
    apply List.map_congr_left
    intro s hs
    have hne : t.end_station_id ≠ s.short_name := by
      intro he
      exact hnot (he ▸ List.mem_map_of_mem (fun s => s.short_name) hs)
    show rollupCount (t :: T) (fun d => d.end_station_id) s.short_name =
      rollupCount T (fun d => d.end_station_id) s.short_name
    simp [rollupCount_cons, hne]
  · intro s hs
    rcases List.mem_map.mp hs with ⟨s0, -, rfl⟩
    exact ⟨rfl, rfl, rfl⟩

/-- Witness for C6: a trip between unknown stations leaves the
departures column unchanged. -/
theorem unmatched_and_empty_inputs_witness :
    (computeStationTraffic [stationA] [tripUnknown]).map (fun s => s.departures) =
      (computeStationTraffic [stationA] []).map (fun s => s.departures) :=
  (unmatched_and_empty_inputs [stationA] [] tripUnknown).1 (by decide)

/-- Claim C7: the flow ratio is `departures / totalTraffic`, taken as 0
when `totalTraffic = 0`, and `stationFlow` quantizes it into the three
buckets 0, 0.5, 1 with equal-width thresholds 1/3 and 2/3, a value
equal to a threshold falling in the upper bucket. -/
theorem flow_ratio_bucketing (s : Station) :
    (s.totalTraffic = 0 → departureRatio s = 0) ∧
    (departureRatio s < 1/3 → stationFlow (departureRatio s) = 0) ∧
    (1/3 ≤ departureRatio s → departureRatio s < 2/3 →
      stationFlow (departureRatio s) = 1/2) ∧
    (2/3 ≤ departureRatio s → stationFlow (departureRatio s) = 1) ∧
    stationFlow (departureRatio s) ∈ ({0, 1/2, 1} : Set ℚ) := by
  refine ⟨fun h => by simp [departureRatio, h], ?_, ?_, ?_, ?_⟩
  · intro h
    rw [stationFlow, if_pos h]
  · intro h1 h2
    rw [stationFlow, if_neg (not_lt.mpr h1), if_pos h2]
  · intro h
    rw [stationFlow, if_neg (by linarith), if_neg (not_lt.mpr h)]
  · unfold stationFlow
    split
    · simp
    · split <;> simp

/-- Witness for C7: a station with 1 departure out of 3 trips has ratio
exactly 1/3, which lands in the middle bucket 0.5. -/
theorem flow_ratio_bucketing_witness :
    stationFlow (departureRatio stationThird) = 1/2 :=
  (flow_ratio_bucketing stationThird).2.2.1
    (by norm_num [departureRatio, stationThird])
    (by norm_num [departureRatio, stationThird])

/-- Every total of the list is bounded by `maxTotalTraffic`. -/
theorem le_maxTotalTraffic (stations : List Station) :
    ∀ s ∈ stations, s.totalTraffic ≤ maxTotalTraffic stations := by
  induction stations with
  | nil => simp
  | cons a l ih =>
      intro s hs
      rcases List.mem_cons.mp hs with rfl | hs
      · exact Nat.le_max_left _ _
      · exact le_trans (ih s hs) (Nat.le_max_right _ _)

/-- On a non-empty list, `maxTotalTraffic` is attained. -/
theorem maxTotalTraffic_mem (stations : List Station) (h : stations ≠ []) :
    maxTotalTraffic stations ∈ stations.map (fun d => d.totalTraffic) := by
  induction stations with
  | nil => exact absurd rfl h
  | cons a l ih =>
      by_cases hl : l = []
      · subst hl
        simp [maxTotalTraffic]
      · have hm := ih hl
        show max a.totalTraffic (maxTotalTraffic l) ∈
          a.totalTraffic :: l.map (fun d => d.totalTraffic)
        rcases Nat.le_total a.totalTraffic (maxTotalTraffic l) with hle | hle
        · rw [Nat.max_eq_right hle]
          exact List.mem_cons_of_mem _ hm
        · rw [Nat.max_eq_left hle]
          exact List.mem_cons_self _ _

/-- Claim C8: on every update the radius scale's domain is
`[0, maxTotalTraffic]` of the currently filtered station set (0 when
the set is empty), and its pixel range is `[0, 25]` when the time
filter is inactive and `[3, 50]` when active. -/
theorem radius_scale_update (S : List Station) (f : Int) :
    (updateRadiusScale S f).domainMax = maxTotalTraffic S ∧
    (∀ s ∈ S, s.totalTraffic ≤ (updateRadiusScale S f).domainMax) ∧
    (S ≠ [] → (updateRadiusScale S f).domainMax ∈ S.map (fun d => d.totalTraffic)) ∧
    (S = [] → (updateRadiusScale S f).domainMax = 0) ∧
    (f = -1 → (updateRadiusScale S f).rangeLo = 0 ∧ (updateRadiusScale S f).rangeHi = 25) ∧
    (f ≠ -1 → (updateRadiusScale S f).rangeLo = 3 ∧ (updateRadiusScale S f).rangeHi = 50) := by
  have hd : (updateRadiusScale S f).domainMax = maxTotalTraffic S := by
    unfold updateRadiusScale
    split <;> rfl
  refine ⟨hd, ?_, ?_, ?_, ?_, ?_⟩
  · intro s hs
    rw [hd]
    exact le_maxTotalTraffic S s hs
  · intro h
    rw [hd]
    exact maxTotalTraffic_mem S h
  · intro h
    subst h
    rw [hd]
    rfl
  · intro h
    simp [updateRadiusScale, h]
  · intro h
    simp [updateRadiusScale, h]

/-- Witness for C8: empty filtered set and an active filter give
domain maximum 0 and pixel range [3, 50]. -/
theorem radius_scale_update_witness :
    (updateRadiusScale [] 600).domainMax = 0 ∧
    (updateRadiusScale [] 600).rangeLo = 3 ∧ (updateRadiusScale [] 600).rangeHi = 50 := by
  obtain ⟨-, -, -, h0, -, hr⟩ := radius_scale_update [] 600
  exact ⟨h0 rfl, hr (by decide)⟩

/-- Claim C9: the aggregator's output has the same length as the input
station list and its i-th element is the enrichment of the i-th input
station. -/
theorem output_preserves_station_order (S : List Station) (T : List Trip) :
    (computeStationTraffic S T).length = S.length ∧
    ∀ i, i < S.length →
      (computeStationTraffic S T).getD i dfltStation =
        setTraffic T (S.getD i dfltStation) := by
  constructor
  · simp [computeStationTraffic]
  · intro i hi
    simp [computeStationTraffic, List.getD_eq_getElem?_getD, List.getElem?_map,
      List.getElem?_eq_getElem hi]

/-- Witness for C9 at index 1 of a two-station list. -/
theorem output_preserves_station_order_witness :
    (computeStationTraffic [stationA, stationB] [tripMorning]).getD 1 dfltStation =
      setTraffic [tripMorning] ([stationA, stationB].getD 1 dfltStation) :=
  (output_preserves_station_order [stationA, stationB] [tripMorning]).2 1 (by decide)

/-- Sums of pointwise sums split. -/
theorem sum_map_add (ids : List String) (f g : String → Nat) :
    (ids.map (fun id => f id + g id)).sum = (ids.map f).sum + (ids.map g).sum := by
  induction ids with
  | nil => rfl
  | cons a l ih =>
      simp only [List.map_cons, List.sum_cons, ih]
      omega

/-- Over a duplicate-free id list, the indicator of one value sums to
its membership. -/
theorem sum_indicator (x : String) (ids : List String) (hnd : ids.Nodup) :
    (ids.map (fun id => if x = id then 1 else 0)).sum = (if x ∈ ids then 1 else 0) := by
  induction ids with
  | nil => simp
  | cons a l ih =>
      rcases List.nodup_cons.mp hnd with ⟨ha, hl⟩
      by_cases hxa : x = a
      · subst hxa
        simp [List.sum_cons, ih hl, ha]
      · simp [List.sum_cons, ih hl, hxa]

/-- Summing per-id counts over a duplicate-free id list counts the
trips whose key occurs among the ids. -/
theorem sum_rollupCount (T : List Trip) (key : Trip → String) (ids : List String)
    (hnd : ids.Nodup) :
    (ids.map (fun id => rollupCount T key id)).sum =
      (T.filter (fun t => decide (key t ∈ ids))).length := by
  induction T with
  | nil => simp [rollupCount]
  | cons t T ih =>
      calc (ids.map fun id => rollupCount (t :: T) key id).sum
          = (ids.map fun id => (if key t = id then 1 else 0) + rollupCount T key id).sum := by
            simp only [rollupCount_cons]
        _ = (ids.map fun id => if key t = id then 1 else 0).sum +
              (ids.map fun id => rollupCount T key id).sum := sum_map_add ids _ _
        _ = (if key t ∈ ids then 1 else 0) +
              (T.filter fun u => decide (key u ∈ ids)).length := by
            rw [sum_indicator (key t) ids hnd, ih]
        _ = ((t :: T).filter fun u => decide (key u ∈ ids)).length := by
            rw [List.filter_cons]
            by_cases h : key t ∈ ids <;> simp [h, Nat.add_comm]

/-- Claim C10: with pairwise-distinct station ids, the departures sum
over the aggregator's output equals the number of trips whose start
station occurs among the ids, and likewise arrivals with end stations. -/
theorem traffic_count_conservation (S : List Station) (T : List Trip)
    (hnd : (S.map (fun s => s.short_name)).Nodup) :
    ((computeStationTraffic S T).map (fun s => s.departures)).sum =
      (T.filter (fun t => decide (t.start_station_id ∈ S.map (fun s => s.short_name)))).length ∧
    ((computeStationTraffic S T).map (fun s => s.arrivals)).sum =
      (T.filter (fun t => decide (t.end_station_id ∈ S.map (fun s => s.short_name)))).length := by
  constructor
  · have h1 : (computeStationTraffic S T).map (fun s => s.departures) =
        (S.map (fun s => s.short_name)).map
          (fun id => rollupCount T (fun d => d.start_station_id) id) := by
      simp only [computeStationTraffic, List.map_map]
      rfl
    rw [h1, sum_rollupCount T _ _ hnd]
  · have h1 : (computeStationTraffic S T).map (fun s => s.arrivals) =
        (S.map (fun s => s.short_name)).map
          (fun id => rollupCount T (fun d => d.end_station_id) id) := by
      simp only [computeStationTraffic, List.map_map]
      rfl
    rw [h1, sum_rollupCount T _ _ hnd]

/-- Witness for C10 on two stations and two trips. -/
theorem traffic_count_conservation_witness :
    ((computeStationTraffic [stationA, stationB] [tripMorning, tripArrivesA]).map
        (fun s => s.departures)).sum =
      ([tripMorning, tripArrivesA].filter
        (fun t => decide (t.start_station_id ∈
          [stationA, stationB].map (fun s => s.short_name)))).length :=
  (traffic_count_conservation [stationA, stationB] [tripMorning, tripArrivesA]
    (by decide)).1

end Bikewatching
